import Mathlib

/-!
Verification of the ollama-chat backend: a shallow embedding of the HTTP
handlers in `api/server.js` (the Node/Express implementation) and of the
controllers in `backend/api.php` (the PHP implementation), both over an
explicit relational store with the three tables `users`, `chats` and
`messages` of the MySQL schema.

Conventions of the embedding:
* every handler is a pure function from the store and the request data to an
  HTTP status code (or a PHP result) and the next store;
* `CURRENT_TIMESTAMP` is the per-statement parameter `now : Nat`; one request
  is modelled as happening at one instant;
* `AUTO_INCREMENT` columns are the counters `nextUserId` / `nextMessageId`;
* statements that MySQL rejects (duplicate primary key, a value outside the
  `sender ENUM('user','ai')` domain under the strict mode that MySQL 8 runs
  with by default) leave the store unchanged, and the handler's catch block
  turns the thrown error into a 500 response;
* external collaborators (bcrypt, PHP's `filter_var` email check) are
  parameters of the functions that use them.
-/

/-- Row of the `users` table.  `password_hash` is the opaque bcrypt output;
`theme_preference` is the theme column (`theme` in the PHP schema). -/
structure User where
  id : Nat
  username : String
  email : String
  password_hash : String
  theme_preference : String
deriving Repr, DecidableEq

/-- Row of the `chats` table.  `id` is the caller-supplied VARCHAR primary
key; `user_id` is the owning user. -/
structure Chat where
  id : String
  user_id : Nat
  name : String
  model : String
  created_at : Nat
  updated_at : Nat
deriving Repr, DecidableEq

/-- Row of the `messages` table.  `id` is the AUTO_INCREMENT primary key. -/
structure Message where
  id : Nat
  chat_id : String
  sender : String
  content : String
  model : Option String
  response_info : Option String
  timestamp : Nat
deriving Repr, DecidableEq

/-- The relational store: the three tables plus the AUTO_INCREMENT counters. -/
structure Db where
  users : List User
  chats : List Chat
  messages : List Message
  nextUserId : Nat
  nextMessageId : Nat
deriving Repr, DecidableEq

/-! ### ORDER BY, modelled as insertion sorts -/

/-- Insert a message into a list that is ascending by `timestamp`. -/
def insertAsc (m : Message) : List Message → List Message
  | [] => [m]
  | x :: xs => if m.timestamp ≤ x.timestamp then m :: x :: xs else x :: insertAsc m xs

/-- `ORDER BY timestamp ASC` over a message list. -/
def sortByTimestampAsc : List Message → List Message
  | [] => []
  | x :: xs => insertAsc x (sortByTimestampAsc xs)

/-- Insert a chat into a list that is descending by `updated_at`. -/
def insertDesc (c : Chat) : List Chat → List Chat
  | [] => [c]
  | x :: xs => if x.updated_at ≤ c.updated_at then c :: x :: xs else x :: insertDesc c xs

/-- `ORDER BY updated_at DESC` over a chat list. -/
def sortByUpdatedDesc : List Chat → List Chat
  | [] => []
  | x :: xs => insertDesc x (sortByUpdatedDesc xs)

/-! ### The `last_message` subquery -/

/-- Sort key of `ORDER BY timestamp DESC LIMIT 1`: `a` comes before `b` when
its timestamp is larger; a tie on the second-granular timestamp is resolved
toward the larger AUTO_INCREMENT `id`, i.e. the later insertion. -/
def moreRecent (a b : Message) : Bool :=
  decide (b.timestamp < a.timestamp ∨ (a.timestamp = b.timestamp ∧ b.id < a.id))

/-- One step of scanning for the most recent message. -/
def pickMoreRecent (acc : Option Message) (m : Message) : Option Message :=
  match acc with
  | none => some m
  | some a => if moreRecent m a then some m else some a

/-- The correlated subquery
`(SELECT content FROM messages WHERE chat_id = ? ORDER BY timestamp DESC LIMIT 1)`
used by both chat listings. -/
def lastMessage (s : Db) (chatId : String) : Option String :=
  ((s.messages.filter (fun m => decide (m.chat_id = chatId))).foldl pickMoreRecent none).map
    (fun m => m.content)

/-! ### Node handlers (`api/server.js`) -/

/-- One row of the `GET /api/chats` response: the chat columns plus the
derived `last_message`. -/
structure ChatSummary where
  chat : Chat
  last_message : Option String
deriving Repr, DecidableEq

/-- `GET /api/chats`: `SELECT c.*, (subquery) FROM chats c WHERE c.user_id = ?
ORDER BY c.updated_at DESC`.  Always answers 200. -/
def listChats (s : Db) (uid : Nat) : List ChatSummary :=
  (sortByUpdatedDesc (s.chats.filter (fun c => decide (c.user_id = uid)))).map
    (fun c => { chat := c, last_message := lastMessage s c.id })

/-- `GET /api/chats/:chatId`: one lookup with `WHERE id = ? AND user_id = ?`;
an empty result — the chat is absent or belongs to someone else — answers 404,
otherwise the chat plus its messages `ORDER BY timestamp ASC`. -/
def getChatWithMessages (s : Db) (uid : Nat) (chatId : String) :
    Nat × Option (Chat × List Message) :=
  match s.chats.find? (fun c => decide (c.id = chatId ∧ c.user_id = uid)) with
  | none => (404, none)
  | some c =>
      (200, some (c, sortByTimestampAsc (s.messages.filter (fun m => decide (m.chat_id = chatId)))))

/-- `POST /api/chats`: presence check on id, name and model, then a bare
`INSERT INTO chats`.  There is no duplicate check and no 409 path: when the
caller-supplied id already exists (whoever owns it), the INSERT violates the
primary key, mysql2 throws, and the catch block answers 500 with the store
unchanged. -/
def createChatNode (s : Db) (uid : Nat) (cid nm md : String) (now : Nat) : Nat × Db :=
  if cid = "" ∨ nm = "" ∨ md = "" then (400, s)
  else if ∃ c ∈ s.chats, c.id = cid then (500, s)
  else
    (201, { s with chats := s.chats ++
      [{ id := cid, user_id := uid, name := nm, model := md, created_at := now, updated_at := now }] })

/-- `PATCH /api/chats/:chatId`: `UPDATE chats SET name = ? WHERE id = ? AND
user_id = ?`, then 404 when `affectedRows` is 0.  mysql2 connects with the
`FOUND_ROWS` flag among its default connection flags, so `affectedRows` is the
number of rows MATCHED by the WHERE clause, whether or not they changed; MySQL
skips the physical write (including the `ON UPDATE CURRENT_TIMESTAMP` bump of
`updated_at`) on a row whose `name` already equals the new value. -/
def renameChat (s : Db) (uid : Nat) (chatId nm : String) (now : Nat) : Nat × Db :=
  if nm = "" then (400, s)
  else if ∃ c ∈ s.chats, c.id = chatId ∧ c.user_id = uid then
    (200, { s with chats := s.chats.map (fun c =>
      if c.id = chatId ∧ c.user_id = uid ∧ c.name ≠ nm
      then { c with name := nm, updated_at := now } else c) })
  else (404, s)

/-- `DELETE /api/chats/:chatId`: `DELETE FROM chats WHERE id = ? AND
user_id = ?`, 404 when no row was deleted.  The schema's
`FOREIGN KEY (chat_id) REFERENCES chats(id) ON DELETE CASCADE` removes the
deleted chat's messages within the same statement; `chats.id` is the primary
key, so the rows matched by the WHERE clause are exactly the rows with this
id. -/
def deleteChatNode (s : Db) (uid : Nat) (chatId : String) : Nat × Db :=
  if ∃ c ∈ s.chats, c.id = chatId ∧ c.user_id = uid then
    (200, { s with
      chats := s.chats.filter (fun c => decide (¬(c.id = chatId ∧ c.user_id = uid))),
      messages := s.messages.filter (fun m => decide (m.chat_id ≠ chatId)) })
  else (404, s)

/-- The row the message INSERT creates: AUTO_INCREMENT id, the posted
columns, `timestamp` filled by its `DEFAULT CURRENT_TIMESTAMP`. -/
def newMessage (s : Db) (chatId sender content : String)
    (model rinfo : Option String) (now : Nat) : Message :=
  { id := s.nextMessageId, chat_id := chatId, sender := sender, content := content,
    model := model, response_info := rinfo, timestamp := now }

/-- First statement of the `POST /api/chats/:chatId/messages` handler:
`INSERT INTO messages (chat_id, sender, content, model, response_info)`. -/
def insertMessageStmt (s : Db) (chatId sender content : String)
    (model rinfo : Option String) (now : Nat) : Db :=
  { s with
    messages := s.messages ++ [newMessage s chatId sender content model rinfo now],
    nextMessageId := s.nextMessageId + 1 }

/-- Second statement of the same handler:
`UPDATE chats SET updated_at = CURRENT_TIMESTAMP WHERE id = ?`. -/
def bumpChatStmt (s : Db) (chatId : String) (now : Nat) : Db :=
  { s with chats := s.chats.map (fun c =>
      if c.id = chatId then { c with updated_at := now } else c) }

/-- `POST /api/chats/:chatId/messages`.  The handler validates only that
`sender` and `content` are present and non-empty, then checks ownership with
`SELECT id FROM chats WHERE id = ? AND user_id = ?`.  A non-empty sender
outside the column domain `sender ENUM('user','ai')` passes both checks and
makes the INSERT itself fail under MySQL 8 strict mode, which the catch block
surfaces as 500 (nothing is written).  On success the INSERT and the
`updated_at` UPDATE run as two separate autocommitted statements — the
handler opens no transaction. -/
def addMessageNode (s : Db) (uid : Nat) (chatId sender content : String)
    (model rinfo : Option String) (now : Nat) : Nat × Db :=
  if sender = "" ∨ content = "" then (400, s)
  else if ∃ c ∈ s.chats, c.id = chatId ∧ c.user_id = uid then
    if sender = "user" ∨ sender = "ai" then
      (201, bumpChatStmt (insertMessageStmt s chatId sender content model rinfo now) chatId now)
    else (500, s)
  else (404, s)

/-- `users.theme_preference := theme` for the one row `WHERE id = ?`. -/
def setTheme (uid : Nat) (theme : String) (u : User) : User :=
  if u.id = uid then { u with theme_preference := theme } else u

/-- `PATCH /api/profile/theme`: 400 unless the body's theme is `light` or
`dark` (`!theme || !['light','dark'].includes(theme)`), otherwise an
unconditional UPDATE of the caller's row. -/
def updateThemeNode (s : Db) (uid : Nat) (theme : String) : Nat × Db :=
  if theme = "light" ∨ theme = "dark" then
    (200, { s with users := s.users.map (setTheme uid theme) })
  else (400, s)

/-- `POST /api/register` in `server.js`: the only validations are the
presence of the three fields and `password.length < 6`; then a single
existence query on username OR email (409 on a hit), then the INSERT with the
bcrypt hash and the default theme.  `hash` stands for `bcrypt.hash`. -/
def registerNode (hash : String → String) (s : Db)
    (username email password : String) : Nat × Db :=
  if username = "" ∨ email = "" ∨ password = "" then (400, s)
  else if password.length < 6 then (400, s)
  else if ∃ u ∈ s.users, u.username = username ∨ u.email = email then (409, s)
  else
    (201, { s with
      users := s.users ++
        [{ id := s.nextUserId, username := username, email := email,
           password_hash := hash password, theme_preference := "light" }],
      nextUserId := s.nextUserId + 1 })

/-! ### PHP controllers (`backend/api.php`) -/

/-- PHP's `empty()` on a string: true for the empty string and for `"0"`. -/
def phpEmpty (x : String) : Bool := decide (x = "" ∨ x = "0")

/-- True when a PHP controller answered with an `['error' => ...]` array. -/
def isErr {α : Type} : Except String α → Bool
  | Except.error _ => true
  | Except.ok _ => false

/-- `AuthController::register`: trims username and email, runs the four
validations (PHP `empty()`, `strlen < 3`, `filter_var(...,
FILTER_VALIDATE_EMAIL)`, `strlen < 6`), the combined existence query, and the
INSERT.  `emailValid` stands for the external `filter_var` check and `hash`
for `password_hash`. -/
def registerPhp (emailValid : String → Bool) (hash : String → String) (s : Db)
    (username email password : String) : Except String Db :=
  if phpEmpty username.trim || phpEmpty email.trim || phpEmpty password then
    Except.error "All fields are required"
  else if username.trim.length < 3 then
    Except.error "Username must be at least 3 characters"
  else if !emailValid email.trim then
    Except.error "Invalid email format"
  else if password.length < 6 then
    Except.error "Password must be at least 6 characters"
  else if ∃ u ∈ s.users, u.username = username.trim ∨ u.email = email.trim then
    Except.error "Username or email already exists"
  else
    Except.ok { s with
      users := s.users ++
        [{ id := s.nextUserId, username := username.trim, email := email.trim,
           password_hash := hash password, theme_preference := "light" }],
      nextUserId := s.nextUserId + 1 }

/-- `AuthController::updateTheme`: no validation at all, just
`UPDATE users SET theme = ? WHERE id = ?` followed by `['success' => true]`.
The PHP schema's `theme` column is `VARCHAR(10)`, so any value of at most 10
characters is stored verbatim; a longer one fails the statement under strict
mode (`none`). -/
def updateThemePhp (s : Db) (uid : Nat) (theme : String) : Option Db :=
  if theme.length ≤ 10 then
    some { s with users := s.users.map (setTheme uid theme) }
  else none

/-- One element of the `chat.messages` array a client posts to the PHP
`saveChat` endpoint. -/
structure PhpMessageData where
  sender : String
  content : String
  model : Option String
  responseInfo : Option String
  timestamp : Nat
deriving Repr, DecidableEq

/-- The `chat` object a client posts to the PHP `saveChat` endpoint. -/
structure PhpChatData where
  id : String
  name : String
  model : String
  createdAt : Nat
  updatedAt : Nat
  messages : List PhpMessageData
deriving Repr, DecidableEq

/-- The loop of `saveChat` that re-inserts the posted messages, drawing
AUTO_INCREMENT ids from `nid`; returns the new rows and the next counter. -/
def insertPhpMessages (cid : String) : List PhpMessageData → Nat → List Message × Nat
  | [], nid => ([], nid)
  | md :: rest, nid =>
      let r := insertPhpMessages cid rest (nid + 1)
      ({ id := nid, chat_id := cid, sender := md.sender, content := md.content,
         model := md.model, response_info := md.responseInfo,
         timestamp := md.timestamp } :: r.1, r.2)

/-- `ChatController::saveChat`: performs NO ownership check.
`INSERT INTO chats ... ON DUPLICATE KEY UPDATE name = VALUES(name),
updated_at = VALUES(updated_at)` — on a fresh id it inserts a chat owned by
the acting user; on an existing id (whoever owns it) only `name` and
`updated_at` are overwritten, `user_id`, `model` and `created_at` keep their
old values.  Then `DELETE FROM messages WHERE chat_id = ?` and the re-insert
loop.  Always returns `['success' => true]`. -/
def saveChatPhp (s : Db) (uid : Nat) (cd : PhpChatData) : Db :=
  { s with
    chats :=
      if ∃ c ∈ s.chats, c.id = cd.id then
        s.chats.map (fun c =>
          if c.id = cd.id then { c with name := cd.name, updated_at := cd.updatedAt } else c)
      else
        s.chats ++ [{ id := cd.id, user_id := uid, name := cd.name, model := cd.model,
                      created_at := cd.createdAt, updated_at := cd.updatedAt }],
    messages := s.messages.filter (fun m => decide (m.chat_id ≠ cd.id)) ++
      (insertPhpMessages cd.id cd.messages s.nextMessageId).1,
    nextMessageId := (insertPhpMessages cd.id cd.messages s.nextMessageId).2 }

/-- `ChatController::deleteChat`: looks the chat up by id alone, then compares
the stored owner with the acting user; the absent case and the foreign-owner
case return the identical error array.  The DELETE cascades to the chat's
messages through the FK. -/
def deleteChatPhp (s : Db) (uid : Nat) (chatId : String) : Except String Db :=
  match s.chats.find? (fun c => decide (c.id = chatId)) with
  | none => Except.error "Chat not found or access denied"
  | some c =>
      if c.user_id = uid then
        Except.ok { s with
          chats := s.chats.filter (fun x => decide (x.id ≠ chatId)),
          messages := s.messages.filter (fun m => decide (m.chat_id ≠ chatId)) }
      else Except.error "Chat not found or access denied"

/-! ### Concrete fixtures used by counterexamples and witnesses -/

/-- A registered user. -/
def userA : User :=
  { id := 1, username := "alice", email := "alice@example.com",
    password_hash := "hashA", theme_preference := "light" }

/-- A second registered user, not the owner of `chatC1`. -/
def userB : User :=
  { id := 2, username := "mallory", email := "mallory@example.com",
    password_hash := "hashB", theme_preference := "light" }

/-- A chat owned by `userA`. -/
def chatC1 : Chat :=
  { id := "c1", user_id := 1, name := "Test", model := "llama2",
    created_at := 0, updated_at := 5 }

/-- One message already stored in `chatC1`. -/
def msg1 : Message :=
  { id := 1, chat_id := "c1", sender := "user", content := "Hello",
    model := none, response_info := none, timestamp := 3 }

/-- A store with one chat (owned by user 1) holding one message. -/
def dbC2 : Db :=
  { users := [userA], chats := [chatC1], messages := [msg1],
    nextUserId := 2, nextMessageId := 2 }

/-- The same store with the second, non-owning user also registered. -/
def dbC1 : Db :=
  { users := [userA, userB], chats := [chatC1], messages := [msg1],
    nextUserId := 3, nextMessageId := 2 }

/-- The empty store. -/
def emptyDb : Db :=
  { users := [], chats := [], messages := [], nextUserId := 1, nextMessageId := 1 }

/-! ### Helper lemmas -/

/-- Mapping a function that fixes every member of a list is the identity. -/
theorem map_eq_self_of_fix {α : Type} (f : α → α) (l : List α)
    (h : ∀ x ∈ l, f x = x) : l.map f = l := by
  induction l with
  | nil => rfl
  | cons x xs ih =>
      simp only [List.map_cons, h x (List.mem_cons_self x xs),
        ih (fun y hy => h y (List.mem_cons_of_mem x hy))]

/-- Two pointwise-equal functions map a list to the same list. -/
theorem map_congr_mem {α β : Type} (f g : α → β) (l : List α)
    (h : ∀ x ∈ l, f x = g x) : l.map f = l.map g := by
  induction l with
  | nil => rfl
  | cons x xs ih =>
      simp only [List.map_cons, h x (List.mem_cons_self x xs),
        ih (fun y hy => h y (List.mem_cons_of_mem x hy))]

/-- `insertDesc` produces a permutation of consing. -/
theorem insertDesc_perm (c : Chat) (l : List Chat) : (insertDesc c l).Perm (c :: l) := by
  induction l with
  | nil => simp [insertDesc]
  | cons x xs ih =>
      by_cases h : x.updated_at ≤ c.updated_at
      · simp [insertDesc, h]
      · simp only [insertDesc, if_neg h]
        exact (ih.cons x).trans (List.Perm.swap c x xs)

/-- The chat sort is a permutation of its input. -/
theorem sortByUpdatedDesc_perm (l : List Chat) : (sortByUpdatedDesc l).Perm l := by
  induction l with
  | nil => simp [sortByUpdatedDesc]
  | cons x xs ih =>
      exact (insertDesc_perm x (sortByUpdatedDesc xs)).trans (ih.cons x)

/-- `insertDesc` keeps a list sorted by `updated_at` descending. -/
theorem insertDesc_sorted (c : Chat) (l : List Chat)
    (h : l.Pairwise (fun a b => b.updated_at ≤ a.updated_at)) :
    (insertDesc c l).Pairwise (fun a b => b.updated_at ≤ a.updated_at) := by
  induction l with
  | nil => simp [insertDesc]
  | cons x xs ih =>
      rcases List.pairwise_cons.mp h with ⟨hx, hxs⟩
      by_cases hle : x.updated_at ≤ c.updated_at
      · simp only [insertDesc, if_pos hle]
        refine List.pairwise_cons.mpr ⟨?_, h⟩
        intro b hb
        rcases List.mem_cons.mp hb with rfl | hb2
        · exact hle
        · exact (hx b hb2).trans hle
      · simp only [insertDesc, if_neg hle]
        refine List.pairwise_cons.mpr ⟨?_, ih hxs⟩
        intro b hb
        rcases List.mem_cons.mp ((insertDesc_perm c xs).mem_iff.mp hb) with rfl | hb2
        · exact Nat.le_of_not_le hle
        · exact hx b hb2

/-- The chat sort is sorted by `updated_at` descending. -/
theorem sortByUpdatedDesc_sorted (l : List Chat) :
    (sortByUpdatedDesc l).Pairwise (fun a b => b.updated_at ≤ a.updated_at) := by
  induction l with
  | nil => simp [sortByUpdatedDesc]
  | cons x xs ih => exact insertDesc_sorted x _ ih

/-- Scanning from a found message always keeps a found message. -/
theorem foldl_pick_isSome (l : List Message) (a : Message) :
    (l.foldl pickMoreRecent (some a)).isSome = true := by
  induction l generalizing a with
  | nil => rfl
  | cons x xs ih =>
      show (xs.foldl pickMoreRecent (pickMoreRecent (some a) x)).isSome = true
      unfold pickMoreRecent
      cases h : moreRecent x a
      · simpa [h] using ih a
      · simpa [h] using ih x

/-- A scan that finds nothing scanned the empty list. -/
theorem foldl_pick_none_eq_nil (l : List Message)
    (h : l.foldl pickMoreRecent none = none) : l = [] := by
  cases l with
  | nil => rfl
  | cons x xs =>
      exfalso
      have h2 : (xs.foldl pickMoreRecent (some x)).isSome = true := foldl_pick_isSome xs x
      rw [List.foldl_cons] at h
      have h3 : pickMoreRecent none x = some x := rfl
      rw [h3] at h
      rw [h] at h2
      simp at h2

/-- The scan result comes from the accumulator or the list. -/
theorem foldl_pick_mem (l : List Message) (acc : Option Message) (r : Message)
    (h : l.foldl pickMoreRecent acc = some r) : acc = some r ∨ r ∈ l := by
  induction l generalizing acc with
  | nil => exact Or.inl h
  | cons x xs ih =>
      rw [List.foldl_cons] at h
      rcases ih (pickMoreRecent acc x) h with h2 | h2
      · cases acc with
        | none =>
            have hx : x = r := by simpa [pickMoreRecent] using h2
            exact Or.inr (hx ▸ List.mem_cons_self x xs)
        | some a =>
            cases hmr : moreRecent x a
            · simp only [pickMoreRecent, hmr, Bool.false_eq_true, if_false] at h2
              exact Or.inl h2
            · simp only [pickMoreRecent, hmr, if_true, Option.some.injEq] at h2
              exact Or.inr (h2 ▸ List.mem_cons_self x xs)
      · exact Or.inr (List.mem_cons_of_mem x h2)

/-- The scan result has the largest timestamp among the accumulator and the
list. -/
theorem foldl_pick_max (l : List Message) (acc : Option Message) (r : Message)
    (h : l.foldl pickMoreRecent acc = some r) :
    (∀ x ∈ l, x.timestamp ≤ r.timestamp) ∧
      (∀ a, acc = some a → a.timestamp ≤ r.timestamp) := by
  induction l generalizing acc with
  | nil =>
      refine ⟨by simp, ?_⟩
      intro a ha
      rw [ha] at h
      cases h
      exact Nat.le_refl _
  | cons x xs ih =>
      rw [List.foldl_cons] at h
      obtain ⟨h1, h2⟩ := ih (pickMoreRecent acc x) h
      have hxle : x.timestamp ≤ r.timestamp := by
        cases acc with
        | none => exact h2 x rfl
        | some a =>
            cases hmr : moreRecent x a
            · have hle : x.timestamp ≤ a.timestamp := by
                have hnot := of_decide_eq_false hmr
                exact Nat.le_of_not_lt (fun hlt => hnot (Or.inl hlt))
              refine hle.trans (h2 a ?_)
              simp [pickMoreRecent, hmr]
            · refine h2 x ?_
              simp [pickMoreRecent, hmr]
      refine ⟨?_, ?_⟩
      · intro y hy
        rcases List.mem_cons.mp hy with rfl | hy2
        · exact hxle
        · exact h1 y hy2
      · intro a ha
        subst ha
        cases hmr : moreRecent x a with
        | false =>
            refine h2 a ?_
            simp [pickMoreRecent, hmr]
        | true =>
            have hgt := of_decide_eq_true hmr
            have hle : a.timestamp ≤ x.timestamp := by
              rcases hgt with hlt | ⟨heq, _⟩
              · exact Nat.le_of_lt hlt
              · exact Nat.le_of_eq heq.symm
            exact hle.trans hxle

/-- When `lastMessage` is absent the chat has no messages at all. -/
theorem lastMessage_none (s : Db) (cid : String) (h : lastMessage s cid = none) :
    ∀ m ∈ s.messages, m.chat_id ≠ cid := by
  unfold lastMessage at h
  rw [Option.map_eq_none'] at h
  have hnil := foldl_pick_none_eq_nil _ h
  intro m hm hc
  have hmem : m ∈ s.messages.filter (fun m => decide (m.chat_id = cid)) :=
    List.mem_filter.mpr ⟨hm, by simp [hc]⟩
  rw [hnil] at hmem
  exact absurd hmem (List.not_mem_nil m)

/-- When `lastMessage` is present it is the content of a message of the chat
whose timestamp is maximal among the chat's messages. -/
theorem lastMessage_some (s : Db) (cid content : String)
    (h : lastMessage s cid = some content) :
    ∃ m ∈ s.messages, m.chat_id = cid ∧ m.content = content ∧
      ∀ m2 ∈ s.messages, m2.chat_id = cid → m2.timestamp ≤ m.timestamp := by
  unfold lastMessage at h
  rw [Option.map_eq_some'] at h
  obtain ⟨r, hr, hrc⟩ := h
  have hrmem : r ∈ s.messages.filter (fun m => decide (m.chat_id = cid)) := by
    rcases foldl_pick_mem _ none r hr with h2 | h2
    · exact absurd h2 (by simp)
    · exact h2
  have hrf := List.mem_filter.mp hrmem
  refine ⟨r, hrf.1, by simpa using hrf.2, hrc, ?_⟩
  intro m2 hm2 hc2
  exact (foldl_pick_max _ none r hr).1 m2 (List.mem_filter.mpr ⟨hm2, by simp [hc2]⟩)

/-! ### Claim theorems -/

/-- C1: the claim says every chat-scoped operation fails with NotFoundError
when the chat is absent or not owned by the acting user.  The PHP
`saveChat` (the spec's create + replaceAll) performs no ownership check at
all: acting as user 2 on chat `c1`, which is owned by user 1, it reports
success, renames the chat and deletes all of its messages — the chat stays
owned by user 1 — while `deleteChat` in the same file refuses the very same
actor with its not-found error. -/
theorem C1_saveChat_ignores_ownership :
    (saveChatPhp dbC1 2
        { id := "c1", name := "hijacked", model := "x", createdAt := 0,
          updatedAt := 9, messages := [] }).chats =
      [{ id := "c1", user_id := 1, name := "hijacked", model := "llama2",
         created_at := 0, updated_at := 9 }] ∧
    (saveChatPhp dbC1 2
        { id := "c1", name := "hijacked", model := "x", createdAt := 0,
          updatedAt := 9, messages := [] }).messages = [] ∧
    deleteChatPhp dbC1 2 "c1" = Except.error "Chat not found or access denied" := by
  exact ⟨by decide, by decide, by rfl⟩

/-- C4: the claim says the two writes of append run in a single transactional
scope.  The Node handler runs them as two separate autocommitted statements;
after the first statement alone — the state a crash between the two
statements leaves behind — the message is durably stored with timestamp 9
while the parent chat's `updated_at` still holds its old value 5.  The last
conjunct checks that the successful handler really is the composition of the
two separate statements. -/
theorem C4_append_not_transactional :
    ((insertMessageStmt dbC2 "c1" "user" "ping" none none 9).messages.any
      (fun m => decide (m.chat_id = "c1" ∧ m.content = "ping" ∧ m.timestamp = 9))) = true ∧
    (insertMessageStmt dbC2 "c1" "user" "ping" none none 9).chats = [chatC1] ∧
    chatC1.updated_at = 5 ∧
    addMessageNode dbC2 1 "c1" "user" "ping" none none 9 =
      (201, bumpChatStmt (insertMessageStmt dbC2 "c1" "user" "ping" none none 9) "c1" 9) := by
  exact ⟨by decide, by decide, by decide, by decide⟩

/-- C5 counterexample: the claim says create on an already-existing chatId
fails with ConflictError (the 409 of the error taxonomy) and leaves the
existing chat unchanged.  In the Node backend the duplicate-key INSERT throws
and the handler answers 500 (InternalError), not 409; in the PHP backend
`saveChat` does not fail at all — it overwrites the existing chat's name
(keeping the original owner). -/
theorem C5_counterexample :
    createChatNode dbC1 2 "c1" "other" "m2" 9 = (500, dbC1) ∧
    (saveChatPhp dbC1 2
        { id := "c1", name := "other", model := "m2", createdAt := 0,
          updatedAt := 9, messages := [] }).chats =
      [{ id := "c1", user_id := 1, name := "other", model := "llama2",
         created_at := 0, updated_at := 9 }] := by
  exact ⟨by decide, by decide⟩

/-- C7 counterexample: the claim says register fails with ValidationError
when the username is shorter than 3 characters or the email fails the format
check.  The Node register handler performs neither check: username `ab`
with email `not-an-email` and a 6-character password is accepted, answered
201, and a user row is created. -/
theorem C7_counterexample :
    (registerNode (fun p => p) emptyDb "ab" "not-an-email" "123456").1 = 201 ∧
    (registerNode (fun p => p) emptyDb "ab" "not-an-email" "123456").2.users.length = 1 := by
  exact ⟨by decide, by decide⟩

/-- C8 counterexample: the claim says append fails with ValidationError
(HTTP 400) whenever the sender is not `user` or `ai`.  A non-empty sender
such as `robot` passes the handler's presence check and the ownership check;
the INSERT is then rejected by the `sender` ENUM under strict mode and the
handler answers 500, not 400 (the store is unchanged). -/
theorem C8_counterexample :
    addMessageNode dbC2 1 "c1" "robot" "hi" none none 9 = (500, dbC2) := by
  decide

/-- C9 counterexample: the claim says updateTheme rejects every theme outside
light/dark so a stored theme is always one of the two.  The PHP
`updateTheme` performs no validation: called with `purple` it succeeds and
stores `purple` in user 1's theme column. -/
theorem C9_counterexample :
    updateThemePhp dbC2 1 "purple" =
      some { dbC2 with users := [{ userA with theme_preference := "purple" }] } := by
  decide

/-- C10 counterexample: the claim says a no-op rename of an existing owned
chat yields affectedRows 0 and hence 404.  mysql2 connects with the
FOUND_ROWS flag by default, so affectedRows counts the matched row: renaming
chat `c1` (owned by the caller, named `Test`) to `Test` answers 200 with the
store unchanged, not 404. -/
theorem C10_counterexample :
    renameChat dbC2 1 "c1" "Test" 9 = (200, dbC2) := by
  decide

/-- When the ownership lookup finds nothing, the chat fetch answers 404. -/
theorem getChat_status_404 (s : Db) (uid : Nat) (chatId : String)
    (h : s.chats.find? (fun c => decide (c.id = chatId ∧ c.user_id = uid)) = none) :
    (getChatWithMessages s uid chatId).1 = 404 := by
  unfold getChatWithMessages
  rw [h]

/-- C2: after a successful delete, looking the chat up fails with 404 and no
message row referencing the deleted chat id remains in the store — the
cascade removed them all within the single DELETE statement. -/
theorem C2_delete_cascades (s : Db) (uid : Nat) (chatId : String)
    (hok : (deleteChatNode s uid chatId).1 = 200) :
    (getChatWithMessages (deleteChatNode s uid chatId).2 uid chatId).1 = 404 ∧
    ∀ m ∈ (deleteChatNode s uid chatId).2.messages, m.chat_id ≠ chatId := by
  by_cases h : ∃ c ∈ s.chats, c.id = chatId ∧ c.user_id = uid
  · have hs : (deleteChatNode s uid chatId).2 = { s with
        chats := s.chats.filter (fun c => decide (¬(c.id = chatId ∧ c.user_id = uid))),
        messages := s.messages.filter (fun m => decide (m.chat_id ≠ chatId)) } := by
      simp [deleteChatNode, h]
    rw [hs]
    constructor
    · apply getChat_status_404
      show (s.chats.filter (fun c => decide (¬(c.id = chatId ∧ c.user_id = uid)))).find?
          (fun c => decide (c.id = chatId ∧ c.user_id = uid)) = none
      rw [List.find?_eq_none]
      intro x hx
      have hx2 := (List.mem_filter.mp hx).2
      simp only [decide_eq_true_eq] at hx2 ⊢
      exact hx2
    · intro m hm
      have hm2 := (List.mem_filter.mp hm).2
      simpa using hm2
  · have h404 : (deleteChatNode s uid chatId).1 = 404 := by simp [deleteChatNode, h]
    rw [h404] at hok
    exact absurd hok (by decide)

/-- C2 witness: deleting chat `c1` as its owner makes the lookup fail 404 and
leaves no message row at all. -/
theorem C2_witness :
    (getChatWithMessages (deleteChatNode dbC2 1 "c1").2 1 "c1").1 = 404 ∧
    (deleteChatNode dbC2 1 "c1").2.messages = [] :=
  ⟨(C2_delete_cascades dbC2 1 "c1" (by decide)).1, by decide⟩

/-- C6: the chat listing is exactly the caller's chats (a permutation of the
ownership filter, so never another user's chat), sorted by `updated_at`
descending, and each row's `last_message` is the content of a message of that
chat with maximal timestamp — absent exactly when the chat has no
messages. -/
theorem C6_listForUser_exact (s : Db) (uid : Nat) :
    ((listChats s uid).map (fun e => e.chat)).Perm
        (s.chats.filter (fun c => decide (c.user_id = uid))) ∧
    (listChats s uid).Pairwise (fun a b => b.chat.updated_at ≤ a.chat.updated_at) ∧
    (∀ e ∈ listChats s uid, e.chat.user_id = uid ∧ e.chat ∈ s.chats) ∧
    (∀ e ∈ listChats s uid,
      (e.last_message = none → ∀ m ∈ s.messages, m.chat_id ≠ e.chat.id) ∧
      (∀ content, e.last_message = some content →
        ∃ m ∈ s.messages, m.chat_id = e.chat.id ∧ m.content = content ∧
          ∀ m2 ∈ s.messages, m2.chat_id = e.chat.id → m2.timestamp ≤ m.timestamp)) := by
  refine ⟨?_, ?_, ?_, ?_⟩
  · unfold listChats
    rw [List.map_map]
    have hcomp : ((fun e : ChatSummary => e.chat) ∘
        (fun c => ({ chat := c, last_message := lastMessage s c.id } : ChatSummary))) = id := rfl
    rw [hcomp, List.map_id]
    exact sortByUpdatedDesc_perm _
  · unfold listChats
    rw [List.pairwise_map]
    exact sortByUpdatedDesc_sorted _
  · intro e he
    unfold listChats at he
    rcases List.mem_map.mp he with ⟨c, hcs, rfl⟩
    have hcf := (sortByUpdatedDesc_perm _).subset hcs
    have h2 := List.mem_filter.mp hcf
    exact ⟨by simpa using h2.2, h2.1⟩
  · intro e he
    unfold listChats at he
    rcases List.mem_map.mp he with ⟨c, hcs, rfl⟩
    exact ⟨fun hnone => lastMessage_none s c.id hnone,
           fun content hsome => lastMessage_some s c.id content hsome⟩

/-- C6 witness: the listing of the one-chat store, instantiated. -/
theorem C6_witness :
    ((listChats dbC2 1).map (fun e => e.chat)).Perm
        (dbC2.chats.filter (fun c => decide (c.user_id = 1))) ∧
    ({ chat := chatC1, last_message := some "Hello" } : ChatSummary).chat.user_id = 1 :=
  ⟨(C6_listForUser_exact dbC2 1).1,
   ((C6_listForUser_exact dbC2 1).2.2.1
      { chat := chatC1, last_message := some "Hello" } (by decide)).1⟩

/-- After an append, the appended message is the chat's `last_message`: its
timestamp `now` is at least every stored timestamp and its AUTO_INCREMENT id
is larger than every stored id, so the DESC scan picks it. -/
theorem lastMessage_after_append (s : Db) (chatId sender content : String)
    (model rinfo : Option String) (now : Nat)
    (hclock : ∀ m ∈ s.messages, m.timestamp ≤ now)
    (hids : ∀ m ∈ s.messages, m.id < s.nextMessageId) :
    lastMessage
      (bumpChatStmt (insertMessageStmt s chatId sender content model rinfo now) chatId now)
      chatId = some content := by
  unfold lastMessage
  have hmsgs :
      (bumpChatStmt (insertMessageStmt s chatId sender content model rinfo now) chatId now).messages
        = s.messages ++ [newMessage s chatId sender content model rinfo now] := rfl
  rw [hmsgs, List.filter_append]
  have hMf : List.filter (fun m => decide (m.chat_id = chatId))
      [newMessage s chatId sender content model rinfo now] =
      [newMessage s chatId sender content model rinfo now] := by simp [newMessage]
  rw [hMf, List.foldl_append]
  cases hfold : (s.messages.filter (fun m => decide (m.chat_id = chatId))).foldl
      pickMoreRecent none with
  | none => simp [pickMoreRecent, newMessage]
  | some a =>
      have ha : a ∈ s.messages.filter (fun m => decide (m.chat_id = chatId)) := by
        rcases foldl_pick_mem _ none a hfold with h | h
        · exact absurd h (by simp)
        · exact h
      have ham : a ∈ s.messages := (List.mem_filter.mp ha).1
      have hmr : moreRecent (newMessage s chatId sender content model rinfo now) a = true := by
        apply decide_eq_true
        rcases Nat.lt_or_ge a.timestamp now with hlt | hge
        · exact Or.inl hlt
        · refine Or.inr ⟨?_, hids a ham⟩
          show now = a.timestamp
          exact (Nat.le_antisymm (hclock a ham) hge).symm
      have hstep : List.foldl pickMoreRecent (some a)
          [newMessage s chatId sender content model rinfo now] =
          some (newMessage s chatId sender content model rinfo now) := by
        simp only [List.foldl_cons, List.foldl_nil, pickMoreRecent, hmr, if_true]
      rw [hstep]
      rfl

/-- C3: when an append succeeds at the server instant `now` (the server clock
being monotone: every stored timestamp is at most `now`, every stored message
id below the AUTO_INCREMENT counter), the subsequent listing contains the
chat with `last_message` equal to the appended content and `updated_at`
bumped to `now`, hence at least any pre-append instant `t0 ≤ now`. -/
theorem C3_append_then_list (s : Db) (uid : Nat) (chatId sender content : String)
    (model rinfo : Option String) (now t0 : Nat)
    (hok : (addMessageNode s uid chatId sender content model rinfo now).1 = 201)
    (hclock : ∀ m ∈ s.messages, m.timestamp ≤ now)
    (hids : ∀ m ∈ s.messages, m.id < s.nextMessageId)
    (ht0 : t0 ≤ now) :
    ∃ e ∈ listChats (addMessageNode s uid chatId sender content model rinfo now).2 uid,
      e.chat.id = chatId ∧ e.last_message = some content ∧ t0 ≤ e.chat.updated_at := by
  by_cases h1 : sender = "" ∨ content = ""
  · simp [addMessageNode, h1] at hok
  · by_cases h2 : ∃ c ∈ s.chats, c.id = chatId ∧ c.user_id = uid
    · by_cases h3 : sender = "user" ∨ sender = "ai"
      · have hs : (addMessageNode s uid chatId sender content model rinfo now).2 =
            bumpChatStmt (insertMessageStmt s chatId sender content model rinfo now)
              chatId now := by
          simp [addMessageNode, h1, h2, h3]
        rw [hs]
        obtain ⟨c, hc, hcp⟩ := h2
        have hc2mem : ({ c with updated_at := now } : Chat) ∈
            (bumpChatStmt (insertMessageStmt s chatId sender content model rinfo now)
              chatId now).chats := by
          have heq : ({ c with updated_at := now } : Chat) =
              (fun x : Chat => if x.id = chatId then { x with updated_at := now } else x) c := by
            simp [hcp.1]
          rw [heq]
          exact List.mem_map_of_mem _ hc
        have hfil : ({ c with updated_at := now } : Chat) ∈
            ((bumpChatStmt (insertMessageStmt s chatId sender content model rinfo now)
              chatId now).chats.filter (fun x => decide (x.user_id = uid))) :=
          List.mem_filter.mpr ⟨hc2mem, by simp [hcp.2]⟩
        have hsorted : ({ c with updated_at := now } : Chat) ∈
            sortByUpdatedDesc
              ((bumpChatStmt (insertMessageStmt s chatId sender content model rinfo now)
                chatId now).chats.filter (fun x => decide (x.user_id = uid))) :=
          (sortByUpdatedDesc_perm _).mem_iff.mpr hfil
        refine ⟨_, List.mem_map_of_mem _ hsorted, hcp.1, ?_, ht0⟩
        show lastMessage
            (bumpChatStmt (insertMessageStmt s chatId sender content model rinfo now)
              chatId now) ({ c with updated_at := now } : Chat).id = some content
        have hid : ({ c with updated_at := now } : Chat).id = chatId := hcp.1
        rw [hid]
        exact lastMessage_after_append s chatId sender content model rinfo now hclock hids
      · simp [addMessageNode, h1, h2, h3] at hok
    · simp [addMessageNode, h1, h2] at hok

/-- Applying the theme UPDATE really stores the theme on the caller's row. -/
theorem setTheme_applied (uid : Nat) (theme : String) (l : List User) :
    ∀ u ∈ l.map (setTheme uid theme), u.id = uid → u.theme_preference = theme := by
  intro u hu hid
  rcases List.mem_map.mp hu with ⟨u0, hu0, rfl⟩
  unfold setTheme at hid ⊢
  by_cases h : u0.id = uid
  · simp [h]
  · simp only [if_neg h] at hid ⊢
    exact absurd hid h

/-- The theme UPDATE is idempotent on a single row. -/
theorem setTheme_idem (uid : Nat) (theme : String) (u : User) :
    setTheme uid theme (setTheme uid theme u) = setTheme uid theme u := by
  unfold setTheme
  by_cases h : u.id = uid <;> simp [h]

/-- The theme UPDATE is idempotent on the whole table. -/
theorem map_setTheme_idem (uid : Nat) (theme : String) (l : List User) :
    (l.map (setTheme uid theme)).map (setTheme uid theme) = l.map (setTheme uid theme) := by
  rw [List.map_map]
  exact map_congr_mem _ _ l (fun u _ => setTheme_idem uid theme u)

/-- C5 (amended): a caller-supplied id collision is never an ownership
transfer.  In the Node backend, create on an existing chatId (whoever owns
it) fails with 500 — the duplicate-key error caught by the handler, not a
409 ConflictError — and the store is unchanged; in the PHP backend,
`saveChat` on an existing chatId keeps every chat's id and owner as they
were (it only overwrites name, updated_at and the message list). -/
theorem C5_create_collision (s : Db) (uid : Nat) (cid nm md : String) (now : Nat)
    (hfields : cid ≠ "" ∧ nm ≠ "" ∧ md ≠ "")
    (hexists : ∃ c ∈ s.chats, c.id = cid) :
    createChatNode s uid cid nm md now = (500, s) ∧
    (∀ cd : PhpChatData, cd.id = cid →
      ∀ c2 ∈ (saveChatPhp s uid cd).chats,
        ∃ c0 ∈ s.chats, c2.id = c0.id ∧ c2.user_id = c0.user_id) := by
  constructor
  · unfold createChatNode
    rw [if_neg, if_pos hexists]
    rintro (h | h | h)
    · exact hfields.1 h
    · exact hfields.2.1 h
    · exact hfields.2.2 h
  · intro cd hcd c2 hc2
    have hex2 : ∃ c ∈ s.chats, c.id = cd.id := by rw [hcd]; exact hexists
    have hchats : (saveChatPhp s uid cd).chats = s.chats.map (fun c =>
        if c.id = cd.id then { c with name := cd.name, updated_at := cd.updatedAt } else c) := by
      simp [saveChatPhp, hex2]
    rw [hchats] at hc2
    rcases List.mem_map.mp hc2 with ⟨c0, hc0, heq⟩
    subst heq
    refine ⟨c0, hc0, ?_, ?_⟩ <;> by_cases h : c0.id = cd.id <;> simp [h]

/-- C5 witness: user 2 trying to create chat `c1`, which user 1 already
owns, gets 500 and changes nothing. -/
theorem C5_witness :
    createChatNode dbC1 2 "c1" "other" "m2" 9 = (500, dbC1) :=
  (C5_create_collision dbC1 2 "c1" "other" "m2" 9 (by decide) (by decide)).1

/-- C7 (amended): the presence check and the password-length check hold in
both backends and reject without creating a user; the username-length check
and the email-format check are enforced only by the PHP register (the Node
register performs neither). -/
theorem C7_register_validation (hash : String → String) (ev : String → Bool)
    (s : Db) (username email password : String) :
    ((username = "" ∨ email = "" ∨ password = "" ∨ password.length < 6) →
      registerNode hash s username email password = (400, s)) ∧
    ((phpEmpty username.trim = true ∨ phpEmpty email.trim = true ∨ phpEmpty password = true ∨
        username.trim.length < 3 ∨ ev email.trim = false ∨ password.length < 6) →
      isErr (registerPhp ev hash s username email password) = true) := by
  constructor
  · intro h
    unfold registerNode
    by_cases h1 : username = "" ∨ email = "" ∨ password = ""
    · rw [if_pos h1]
    · rw [if_neg h1]
      have hp : password.length < 6 := by
        rcases h with h | h | h | h
        · exact absurd (Or.inl h) h1
        · exact absurd (Or.inr (Or.inl h)) h1
        · exact absurd (Or.inr (Or.inr h)) h1
        · exact h
      rw [if_pos hp]
  · intro h
    unfold registerPhp
    by_cases h1 : (phpEmpty username.trim || phpEmpty email.trim || phpEmpty password) = true
    · rw [if_pos h1]
      rfl
    · rw [if_neg h1]
      simp only [Bool.or_eq_true, not_or, Bool.not_eq_true] at h1
      by_cases h2 : username.trim.length < 3
      · rw [if_pos h2]
        rfl
      · rw [if_neg h2]
        by_cases h3 : (!ev email.trim) = true
        · rw [if_pos h3]
          rfl
        · rw [if_neg h3]
          simp only [Bool.not_eq_true', Bool.not_eq_true] at h3
          by_cases h4 : password.length < 6
          · rw [if_pos h4]
            rfl
          · exfalso
            rcases h with h | h | h | h | h | h
            · have hc := h1.1.1
              rw [h] at hc
              exact absurd hc (by decide)
            · have hc := h1.1.2
              rw [h] at hc
              exact absurd hc (by decide)
            · have hc := h1.2
              rw [h] at hc
              exact absurd hc (by decide)
            · exact h2 h
            · exact h3 h
            · exact h4 h

/-- C7 witness: an empty username is rejected 400 by the Node register with
the store unchanged, and a 3-character password is rejected by the PHP
register. -/
theorem C7_witness :
    registerNode (fun p => p) emptyDb "" "a@b.c" "123456" = (400, emptyDb) ∧
    isErr (registerPhp (fun _ => true) (fun p => p) emptyDb "abc" "a@b.c" "123") = true :=
  ⟨(C7_register_validation (fun p => p) (fun _ => true) emptyDb "" "a@b.c" "123456").1
      (Or.inl rfl),
   (C7_register_validation (fun p => p) (fun _ => true) emptyDb "abc" "a@b.c" "123").2
      (Or.inr (Or.inr (Or.inr (Or.inr (Or.inr (by decide))))))⟩

/-- C8 (amended): the append handler answers 400 exactly for a missing or
empty sender or content (store unchanged); with non-empty fields it answers
404 when the chat is absent or not owned (store unchanged); and a non-empty
sender outside the user/ai ENUM on an owned chat is rejected by the database
and surfaces as 500, again with no message inserted and no timestamp
bumped. -/
theorem C8_append_errors (s : Db) (uid : Nat) (chatId sender content : String)
    (model rinfo : Option String) (now : Nat) :
    ((sender = "" ∨ content = "") →
      addMessageNode s uid chatId sender content model rinfo now = (400, s)) ∧
    ((¬(sender = "" ∨ content = "")) → (¬∃ c ∈ s.chats, c.id = chatId ∧ c.user_id = uid) →
      addMessageNode s uid chatId sender content model rinfo now = (404, s)) ∧
    ((¬(sender = "" ∨ content = "")) → (∃ c ∈ s.chats, c.id = chatId ∧ c.user_id = uid) →
      sender ≠ "user" → sender ≠ "ai" →
      addMessageNode s uid chatId sender content model rinfo now = (500, s)) := by
  refine ⟨?_, ?_, ?_⟩
  · intro h
    unfold addMessageNode
    rw [if_pos h]
  · intro h1 h2
    unfold addMessageNode
    rw [if_neg h1, if_neg h2]
  · intro h1 h2 h3 h4
    have h5 : ¬(sender = "user" ∨ sender = "ai") := by
      rintro (h | h)
      · exact h3 h
      · exact h4 h
    unfold addMessageNode
    rw [if_neg h1, if_pos h2, if_neg h5]

/-- C8 witness: the three rejection paths of the append handler, each leaving
the store unchanged. -/
theorem C8_witness :
    addMessageNode dbC2 1 "c1" "" "hi" none none 9 = (400, dbC2) ∧
    addMessageNode dbC2 1 "nope" "user" "hi" none none 9 = (404, dbC2) ∧
    addMessageNode dbC2 1 "c1" "bot" "hi" none none 9 = (500, dbC2) :=
  ⟨(C8_append_errors dbC2 1 "c1" "" "hi" none none 9).1 (Or.inl rfl),
   (C8_append_errors dbC2 1 "nope" "user" "hi" none none 9).2.1 (by decide) (by decide),
   (C8_append_errors dbC2 1 "c1" "bot" "hi" none none 9).2.2
      (by decide) (by decide) (by decide) (by decide)⟩

/-- C9 (amended): the Node theme handler rejects every theme outside
light/dark with 400 and an unchanged store, and for light/dark performs an
unconditional, idempotent update of the caller's row; the PHP `updateTheme`
performs no validation and stores whatever fits the VARCHAR(10) column, so
with the PHP backend a stored theme may lie outside the two enumerated
values. -/
theorem C9_theme_update (s : Db) (uid : Nat) (theme : String) :
    (theme ≠ "light" → theme ≠ "dark" → updateThemeNode s uid theme = (400, s)) ∧
    ((theme = "light" ∨ theme = "dark") →
      (updateThemeNode s uid theme).1 = 200 ∧
      (∀ u ∈ (updateThemeNode s uid theme).2.users, u.id = uid → u.theme_preference = theme) ∧
      updateThemeNode (updateThemeNode s uid theme).2 uid theme =
        updateThemeNode s uid theme) ∧
    (∀ s2, updateThemePhp s uid theme = some s2 →
      ∀ u ∈ s2.users, u.id = uid → u.theme_preference = theme) := by
  refine ⟨?_, ?_, ?_⟩
  · intro h1 h2
    unfold updateThemeNode
    rw [if_neg]
    rintro (h | h)
    · exact h1 h
    · exact h2 h
  · intro h
    have hs2 : (updateThemeNode s uid theme).2 =
        { s with users := s.users.map (setTheme uid theme) } := by
      simp [updateThemeNode, h]
    refine ⟨?_, ?_, ?_⟩
    · simp [updateThemeNode, h]
    · rw [hs2]
      exact setTheme_applied uid theme s.users
    · rw [hs2]
      unfold updateThemeNode
      rw [if_pos h, if_pos h]
      rw [show ({ s with users := s.users.map (setTheme uid theme) } : Db).users =
            s.users.map (setTheme uid theme) from rfl]
      rw [map_setTheme_idem]
  · intro s2 hs2 u hu hid
    unfold updateThemePhp at hs2
    by_cases hl : theme.length ≤ 10
    · rw [if_pos hl] at hs2
      injection hs2 with hs2
      subst hs2
      exact setTheme_applied uid theme s.users u hu hid
    · rw [if_neg hl] at hs2
      exact absurd hs2 (by simp)

/-- C9 witness: `purple` is rejected 400 by the Node handler with the store
unchanged, `dark` is accepted 200. -/
theorem C9_witness :
    updateThemeNode dbC2 1 "purple" = (400, dbC2) ∧
    (updateThemeNode dbC2 1 "dark").1 = 200 :=
  ⟨(C9_theme_update dbC2 1 "purple").1 (by decide) (by decide),
   ((C9_theme_update dbC2 1 "dark").2.1 (Or.inr rfl)).1⟩

/-- C10 (amended): because mysql2 connects with CLIENT_FOUND_ROWS by
default, the rename handler's affectedRows counts matched rows: a rename of
an existing owned chat to its current name matches one row and answers 200
with the store unchanged — no row changes and `updated_at` is not bumped —
while 404 arises exactly when no chat matches the id-and-owner WHERE clause
(absent or foreign chat). -/
theorem C10_rename_matched_rows (s : Db) (uid : Nat) (chatId nm : String) (now : Nat)
    (hname : nm ≠ "")
    (hc : ∃ c ∈ s.chats, c.id = chatId ∧ c.user_id = uid)
    (hnoop : ∀ c ∈ s.chats, c.id = chatId → c.user_id = uid → c.name = nm) :
    renameChat s uid chatId nm now = (200, s) ∧
    (∀ s2 : Db, (∀ c ∈ s2.chats, ¬(c.id = chatId ∧ c.user_id = uid)) →
      renameChat s2 uid chatId nm now = (404, s2)) := by
  constructor
  · unfold renameChat
    rw [if_neg hname, if_pos hc]
    have hmap : s.chats.map (fun c =>
        if c.id = chatId ∧ c.user_id = uid ∧ c.name ≠ nm
        then { c with name := nm, updated_at := now } else c) = s.chats := by
      apply map_eq_self_of_fix
      intro c hcmem
      rw [if_neg]
      rintro ⟨h1, h2, h3⟩
      exact h3 (hnoop c hcmem h1 h2)
    rw [hmap]
  · intro s2 hall
    unfold renameChat
    rw [if_neg hname, if_neg]
    rintro ⟨c, hcm, hp⟩
    exact hall c hcm hp

/-- C10 witness: the no-op rename of the owned chat answers 200 unchanged;
the same request against the empty store answers 404. -/
theorem C10_witness :
    renameChat dbC2 1 "c1" "Test" 9 = (200, dbC2) ∧
    renameChat emptyDb 1 "c1" "Test" 9 = (404, emptyDb) :=
  ⟨(C10_rename_matched_rows dbC2 1 "c1" "Test" 9 (by decide) (by decide) (by decide)).1,
   (C10_rename_matched_rows dbC2 1 "c1" "Test" 9 (by decide) (by decide) (by decide)).2
      emptyDb (by decide)⟩

/-- C3 witness: appending `Hi!` to chat `c1` at instant 9 makes some listing
row carry chat `c1` with `last_message` `Hi!` and `updated_at` at least the
pre-append instant 5. -/
theorem C3_witness :
    ((listChats (addMessageNode dbC2 1 "c1" "ai" "Hi!" none none 9).2 1).any
      (fun e => decide (e.chat.id = "c1" ∧ e.last_message = some "Hi!" ∧
        5 ≤ e.chat.updated_at))) = true := by
  rcases C3_append_then_list dbC2 1 "c1" "ai" "Hi!" none none 9 5
      (by decide) (by decide) (by decide) (by decide) with ⟨e, he, hid, hlm, hup⟩
  refine List.any_eq_true.mpr ⟨e, he, ?_⟩
  simp [hid, hlm, hup]
